import Mathlib

/-!
Verification of the OMR evaluation orchestration (`src/streamlit_app.py`)
and of the mark-detection rule it relies on.

The repository ships only the orchestration layer under `src/`; the
collaborator services (`app/services/preprocess`, `app/services/detect`,
`app/services/grid`, `app/services/omr`, `app/services/omr_template`,
`app/services/key`) are external to `src/`.  Those collaborators are
modelled here: the Mark Detector's classification rule is modelled from the
spec, and the remaining collaborator calls are abstracted as an explicit
environment of (deterministic) functions, fallible ones returning
`Except String`, exactly at the call sites the orchestration uses.
-/

namespace OMR

/-- Verdict of the Mark Detector for one question: a single selected option,
no option marked, or ambiguous (more than one option plausibly filled). -/
inductive Verdict where
  | single (idx : Nat)
  | noneMarked
  | ambiguousMultiple
deriving DecidableEq, Repr

/-- Descending, stable sort of (option index, fill fraction) pairs by fill
fraction: among equal fractions the earlier option stays first, as in a
stable sort with a reversed comparison. -/
def sortDesc (l : List (Nat × ℚ)) : List (Nat × ℚ) :=
  List.insertionSort (fun p q => q.2 ≤ p.2) l

/-- Modelled from the spec: the Mark Detector's per-question classification
(`app/services/detect.py`, function `evaluate_by_questions`, is not under
`src/`).  Per spec section 4.4: compute a fill fraction per option, sort the
options by fill fraction descending; if the top fraction is below the fill
threshold the verdict is none-marked; else if the difference between the top
two fractions is below the minimum margin the verdict is ambiguous-multiple;
else the verdict is the top option's index.  With a single option there is no
second fraction, so the margin test is vacuous. -/
def markVerdict (fracs : List ℚ) (fillThreshold minMargin : ℚ) : Verdict :=
  match sortDesc fracs.enum with
  | [] => Verdict.noneMarked
  | [(i, f)] =>
      if f < fillThreshold then Verdict.noneMarked else Verdict.single i
  | (i, f) :: (_, g) :: _ =>
      if f < fillThreshold then Verdict.noneMarked
      else if f - g < minMargin then Verdict.ambiguousMultiple
      else Verdict.single i

end OMR

namespace OMR

/-- Shape equation for the detector when the descending sort of the indexed
fractions has at least two entries. -/
lemma markVerdict_eq_two (fracs : List ℚ) (t m : ℚ) (i j : ℕ) (f g : ℚ)
    (rest : List (ℕ × ℚ)) (h : sortDesc fracs.enum = (i, f) :: (j, g) :: rest) :
    markVerdict fracs t m =
      (if f < t then Verdict.noneMarked
       else if f - g < m then Verdict.ambiguousMultiple
       else Verdict.single i) := by
  unfold markVerdict
  rw [h]

/-- C1: the Mark Detector's verdict is determined by the per-option fill
fractions sorted descending: below-threshold top fraction gives none-marked,
a top-two gap below the minimum margin gives ambiguous-multiple, otherwise
the top option's index; and the spec scenario with fractions
one half, twenty-three fiftieths, one fiftieth at threshold 0.45 and margin
0.12 yields ambiguous-multiple. -/
theorem C1_mark_detector (fracs : List ℚ) (t m : ℚ) (i j : ℕ) (f g : ℚ)
    (rest : List (ℕ × ℚ))
    (h : sortDesc fracs.enum = (i, f) :: (j, g) :: rest) :
    (f < t → markVerdict fracs t m = Verdict.noneMarked) ∧
    (t ≤ f → f - g < m → markVerdict fracs t m = Verdict.ambiguousMultiple) ∧
    (t ≤ f → m ≤ f - g → markVerdict fracs t m = Verdict.single i) ∧
    markVerdict [1/2, 23/50, 1/50] (45/100) (12/100) = Verdict.ambiguousMultiple := by
  have e := markVerdict_eq_two fracs t m i j f g rest h
  refine ⟨?_, ?_, ?_, ?_⟩
  · intro hf; rw [e, if_pos hf]
  · intro hf hg; rw [e, if_neg (not_lt.mpr hf), if_pos hg]
  · intro hf hg; rw [e, if_neg (not_lt.mpr hf), if_neg (not_lt.mpr hg)]
  · norm_num [markVerdict, sortDesc, List.insertionSort, List.orderedInsert, List.enum,
      List.enumFrom]

/-- Witness for C1 at the spec scenario fractions, threshold 0.45, margin 0.12. -/
theorem C1_witness :
    sortDesc ([1/2, 23/50, 1/50] : List ℚ).enum =
      (0, 1/2) :: (1, 23/50) :: [(2, 1/50)] ∧
    (((1:ℚ)/2 < 45/100 →
       markVerdict [1/2, 23/50, 1/50] (45/100) (12/100) = Verdict.noneMarked) ∧
     ((45:ℚ)/100 ≤ 1/2 → (1:ℚ)/2 - 23/50 < 12/100 →
       markVerdict [1/2, 23/50, 1/50] (45/100) (12/100) = Verdict.ambiguousMultiple) ∧
     ((45:ℚ)/100 ≤ 1/2 → (12:ℚ)/100 ≤ 1/2 - 23/50 →
       markVerdict [1/2, 23/50, 1/50] (45/100) (12/100) = Verdict.single 0) ∧
     markVerdict [1/2, 23/50, 1/50] (45/100) (12/100) = Verdict.ambiguousMultiple) := by
  have hs : sortDesc ([1/2, 23/50, 1/50] : List ℚ).enum =
      (0, 1/2) :: (1, 23/50) :: [(2, 1/50)] := by
    norm_num [sortDesc, List.insertionSort, List.orderedInsert, List.enum, List.enumFrom]
  exact ⟨hs,
    C1_mark_detector [1/2, 23/50, 1/50] (45/100) (12/100) 0 1 (1/2) (23/50) [(2, 1/50)] hs⟩

/-- C7: detection is monotone in the tunables: raising the fill threshold
never converts a none-marked verdict into a marked one, and a verdict changed
by raising the threshold becomes none-marked; raising the minimum margin
never converts an ambiguous verdict into a single-option one, and a verdict
changed by raising the margin was single-option and becomes ambiguous. -/
theorem C7_monotone (fracs : List ℚ) (t t' m m' : ℚ) (ht : t ≤ t') (hm : m ≤ m') :
    (markVerdict fracs t m = Verdict.noneMarked → markVerdict fracs t' m = Verdict.noneMarked) ∧
    (markVerdict fracs t' m ≠ markVerdict fracs t m →
      markVerdict fracs t' m = Verdict.noneMarked) ∧
    (markVerdict fracs t m = Verdict.ambiguousMultiple →
      markVerdict fracs t m' = Verdict.ambiguousMultiple) ∧
    (markVerdict fracs t m' ≠ markVerdict fracs t m →
      markVerdict fracs t m' = Verdict.ambiguousMultiple ∧
      ∃ k, markVerdict fracs t m = Verdict.single k) := by
  rcases hs : sortDesc fracs.enum with _ | ⟨⟨i, f⟩, _ | ⟨⟨j, g⟩, rest⟩⟩
  · have e : ∀ a b : ℚ, markVerdict fracs a b = Verdict.noneMarked := by
      intro a b; unfold markVerdict; rw [hs]
    simp [e]
  · have e : ∀ a b : ℚ, markVerdict fracs a b =
        (if f < a then Verdict.noneMarked else Verdict.single i) := by
      intro a b; unfold markVerdict; rw [hs]
    rw [e t m, e t' m, e t m']
    refine ⟨?_, ?_, ?_, ?_⟩ <;> split_ifs <;> simp_all <;> linarith
  · have e : ∀ a b : ℚ, markVerdict fracs a b =
        (if f < a then Verdict.noneMarked
         else if f - g < b then Verdict.ambiguousMultiple
         else Verdict.single i) :=
      fun a b => markVerdict_eq_two fracs a b i j f g rest hs
    rw [e t m, e t' m, e t m']
    refine ⟨?_, ?_, ?_, ?_⟩ <;> split_ifs <;> simp_all <;> linarith

/-- Witness for C7 at the spec scenario fractions, thresholds 0.45 and 0.5,
margins 0.12 and 0.2. -/
theorem C7_witness :
    ((45:ℚ)/100 ≤ 1/2 ∧ (12:ℚ)/100 ≤ 1/5) ∧
    ((markVerdict [1/2, 23/50, 1/50] (45/100) (12/100) = Verdict.noneMarked →
       markVerdict [1/2, 23/50, 1/50] (1/2) (12/100) = Verdict.noneMarked) ∧
     (markVerdict [1/2, 23/50, 1/50] (1/2) (12/100) ≠
        markVerdict [1/2, 23/50, 1/50] (45/100) (12/100) →
       markVerdict [1/2, 23/50, 1/50] (1/2) (12/100) = Verdict.noneMarked) ∧
     (markVerdict [1/2, 23/50, 1/50] (45/100) (12/100) = Verdict.ambiguousMultiple →
       markVerdict [1/2, 23/50, 1/50] (45/100) (1/5) = Verdict.ambiguousMultiple) ∧
     (markVerdict [1/2, 23/50, 1/50] (45/100) (1/5) ≠
        markVerdict [1/2, 23/50, 1/50] (45/100) (12/100) →
       markVerdict [1/2, 23/50, 1/50] (45/100) (1/5) = Verdict.ambiguousMultiple ∧
       ∃ k, markVerdict [1/2, 23/50, 1/50] (45/100) (12/100) = Verdict.single k)) :=
  ⟨⟨by norm_num, by norm_num⟩,
    C7_monotone [1/2, 23/50, 1/50] (45/100) (1/2) (12/100) (1/5)
      (by norm_num) (by norm_num)⟩

end OMR

namespace OMR

/-- Abstract representation of a decoded raster image (collaborator data,
opaque to the orchestration). -/
abbrev Img := Nat

/-- Abstract representation of raw uploaded bytes. -/
abbrev Bytes := Nat

/-- Abstract representation of the answers object returned by
`evaluate_by_questions` for one image (the per-question Answer set). -/
abbrev AnswerSet := Nat

/-- Abstract representation of a parsed answer key (`parse_key_excel`
output).  Python truthiness is modelled by `Option`: `none` stands for a
key that is `None` or empty, which the code treats as "no key". -/
abbrev KeyMap := Nat

/-- Abstract representation of one per-image detail sheet
(`format_answers_as_columns` output wrapped in a data frame). -/
abbrev Sheet := Nat

/-- Abstract representation of a rendered overlay image. -/
abbrev Overlay := Nat

/-- One question descriptor from the template JSON: its optional `index`
field (`q.get("index", 0)` treats a missing index as 0) and the rest of the
descriptor (subject tag and option geometry), opaque here. -/
structure Question where
  index : Option Int
  geom : Nat
deriving DecidableEq, Repr

/-- Sort key used at line 223 of `streamlit_app.py`:
`key=lambda q: q.get("index", 0)`. -/
def qkey (q : Question) : Int := q.index.getD 0

/-- Stable ascending sort of the template questions by `qkey`, modelling
Python's stable `sorted(tpl.get("questions", []), key=...)` at line 223. -/
def sortQ (qs : List Question) : List Question :=
  List.insertionSort (fun a b => qkey a ≤ qkey b) qs

/-- A parsed template JSON document: its `questions` list (a document
without the key parses to the empty list, matching the
`tpl.get("questions", [])` default). -/
structure Template where
  questions : List Question
deriving DecidableEq, Repr

/-- The per-run alignment fine-tuning sliders (lines 175-178). -/
structure Adjust where
  scaleX : ℚ
  scaleY : ℚ
  offsetX : ℚ
  offsetY : ℚ
deriving DecidableEq, Repr

/-- The JSON payload posted to the results API (lines 266-272). -/
structure Payload where
  studentCode : String
  sheetVersion : String
  perSubject : List (String × Int)
  total : Int
  answers : AnswerSet
deriving DecidableEq, Repr

/-- Modelled from the spec and the call sites: the collaborator functions
`streamlit_app.py` calls whose code is not under `src/` (`PIL.Image.open`,
`app.services.preprocess.detect_orientation` and `rectify_perspective`,
`json.loads` of the template, `app.services.detect.evaluate_by_questions`,
`app.services.grid.estimate_grid_rois`,
`app.services.omr.compute_scores_from_answers` and
`format_answers_as_columns`, `app.services.omr_template.draw_overlay`,
`requests.post`, and `settings.subjects`).  Each is a deterministic
function of its arguments; calls that can raise return `Except String`.
`detect_orientation` and `rectify_perspective` are total, per spec
sections 4.1 and 4.2 they never abort.  `imgDims` returns numpy's
`shape[:2]`, that is (height, width). -/
structure Env where
  decode : Bytes → Except String Img
  detectOrientation : Img → Img × Nat
  rectifyPerspective : Img → Img
  imgDims : Img → Nat × Nat
  parseTemplate : Bytes → Except String Template
  estimateGridRois : Nat → Nat → List Question
  evalByQuestions : Img → List Question → Option Adjust → Except String AnswerSet
  computeScores : AnswerSet → KeyMap → Except String (List (String × Option Int) × Int)
  formatAnswers : AnswerSet → Except String Sheet
  drawOverlay : Img → Template → AnswerSet → Adjust → Except String Overlay
  post : Payload → Except String Unit
  subjects : List String

/-- The run-wide configuration gathered from the sidebar and the expanders
before the evaluation button is pressed: sheet version, selected key sheet,
parsed key (`none` for absent or falsy), template file bytes, the fill
threshold and minimum margin sliders (lines 172-173), the alignment sliders,
and the overlay / save-to-database / large-batch checkboxes. -/
structure RunCfg where
  sheetVersion : String
  keySheet : Option String
  keyMap : Option KeyMap
  tpl : Option Bytes
  fillThreshold : ℚ
  minMargin : ℚ
  adjust : Adjust
  showOverlay : Bool
  saveToDb : Bool
  largeBatch : Bool

/-- One uploaded image file: its `name` and its bytes. -/
structure UpFile where
  name : String
  content : Bytes
deriving DecidableEq, Repr

/-- One row appended to `results`: either a success row
(`{"filename", "Set", subject scores, "total"}`, lines 245-251) or a failure
row (`{"filename", "error"}`, line 278). -/
inductive Row where
  | ok (filename set : String) (subjectScores : List (String × Int)) (total : Option Int)
  | err (filename msg : String)
deriving DecidableEq, Repr

/-- The filename field of a result row. -/
def rowName : Row → String
  | Row.ok n _ _ _ => n
  | Row.err n _ => n

/-- The mutable state of the evaluation loop: the `results` list, the
`detailed_sheets` list, and the Python variable `answers`, which persists
across iterations (`none` while still unassigned). -/
structure LoopState where
  results : List Row
  sheets : List (String × Sheet)
  answersVar : Option AnswerSet
deriving DecidableEq, Repr

/-- The empty state before the loop at line 205-207. -/
def st0 : LoopState := ⟨[], [], none⟩

/-- The `"Set"` cell of a success row: `key_sheet or sheet_version`
(line 245). -/
def setLabel (cfg : RunCfg) : String := cfg.keySheet.getD cfg.sheetVersion

/-- Lookup of `per_subj_scores[s]`: `none` means the subject key is missing
and Python raises `KeyError`. -/
def lookupSubj (m : List (String × Option Int)) (s : String) : Option (Option Int) :=
  (m.find? (fun p => p.1 == s)).map Prod.snd

/-- The row-building loop at lines 246-248: for each subject in
`settings.subjects`, skip a `None` score and record a present one; a missing
subject key raises `KeyError` (caught by the per-image handler). -/
def buildSubjCells (subjects : List String) (m : List (String × Option Int)) :
    Except String (List (String × Int)) :=
  match subjects with
  | [] => Except.ok []
  | s :: rest =>
      match lookupSubj m s with
      | none => Except.error ("KeyError: " ++ s)
      | some none => buildSubjCells rest m
      | some (some v) =>
          match buildSubjCells rest m with
          | Except.ok cells => Except.ok ((s, v) :: cells)
          | Except.error e => Except.error e

/-- Lines 210-236 of the per-image try block: decode the upload, normalize
orientation, rectify perspective, then detect answers either from the
template (questions sorted ascending by index, alignment sliders applied)
or from the estimated grid (`estimate_grid_rois(w, h)` from the image
dimensions, detector called with its own defaults). -/
def detectStage (env : Env) (cfg : RunCfg) (uf : UpFile) : Except String AnswerSet :=
  match env.decode uf.content with
  | Except.error e => Except.error e
  | Except.ok img0 =>
      let img := env.rectifyPerspective (env.detectOrientation img0).1
      match cfg.tpl with
      | some tb =>
          match env.parseTemplate tb with
          | Except.error e => Except.error e
          | Except.ok tpl =>
              env.evalByQuestions img (sortQ tpl.questions) (some cfg.adjust)
      | none =>
          let dims := env.imgDims img
          env.evalByQuestions img (env.estimateGridRois dims.2 dims.1) none

/-- Lines 239-250: with no key, every subject score is `None` and the total
is `None`; with a key, `compute_scores_from_answers` supplies them.  Returns
the subject cells actually written into the row and the optional total. -/
def scoreStage (env : Env) (cfg : RunCfg) (as : AnswerSet) :
    Except String (List (String × Int) × Option Int) :=
  match cfg.keyMap with
  | none =>
      match buildSubjCells env.subjects (env.subjects.map (fun s => (s, none))) with
      | Except.ok cells => Except.ok (cells, none)
      | Except.error e => Except.error e
  | some km =>
      match env.computeScores as km with
      | Except.error e => Except.error e
      | Except.ok (m, t) =>
          match buildSubjCells env.subjects m with
          | Except.ok cells => Except.ok (cells, some t)
          | Except.error e => Except.error e

/-- Python `os.path.splitext(name)[0]` for a bare filename: drop the part
from the last dot on, unless every character before that dot is itself a
dot (leading dots are not an extension separator). -/
def splitextBase (s : String) : String :=
  match (s.toList.reverse).dropWhile (fun c => !(c == '.')) with
  | [] => s
  | _ :: baseRev =>
      if baseRev.any (fun c => !(c == '.')) then String.mk baseRev.reverse else s

/-- The payload of lines 266-272. -/
def mkPayload (cfg : RunCfg) (uf : UpFile) (cells : List (String × Int))
    (t : Option Int) (as : AnswerSet) : Payload :=
  { studentCode := splitextBase uf.name
    sheetVersion := setLabel cfg
    perSubject := cells
    total := t.getD 0
    answers := as }

/-- The inner `try`/`except Exception: pass` around `requests.post`
(lines 265-276): whatever the post returns, the loop state is unchanged. -/
def afterPost (st : LoopState) (r : Except String Unit) : LoopState :=
  match r with
  | Except.ok _ => st
  | Except.error _ => st

/-- One iteration of the evaluation loop (lines 208-279).  A failure
anywhere in the try block appends a failure row; note that the success row
is appended at line 251, before the per-image sheet is prepared, so a
failure in `format_answers_as_columns` appends a second, failure row for the
same image.  The save-to-database branch posts and discards the outcome. -/
def processOne (env : Env) (cfg : RunCfg) (st : LoopState) (uf : UpFile) : LoopState :=
  match detectStage env cfg uf with
  | Except.error e =>
      { st with results := st.results ++ [Row.err uf.name e] }
  | Except.ok as =>
      let st1 : LoopState := { st with answersVar := some as }
      match scoreStage env cfg as with
      | Except.error e =>
          { st1 with results := st1.results ++ [Row.err uf.name e] }
      | Except.ok (cells, t) =>
          let row := Row.ok uf.name (setLabel cfg) cells t
          let st2 : LoopState := { st1 with results := st1.results ++ [row] }
          if cfg.largeBatch then
            if cfg.saveToDb && cfg.keyMap.isSome then
              afterPost st2 (env.post (mkPayload cfg uf cells t as))
            else st2
          else
            match env.formatAnswers as with
            | Except.error e =>
                { st2 with results := st2.results ++ [Row.err uf.name e] }
            | Except.ok sheet =>
                let st3 : LoopState := { st2 with sheets := st2.sheets ++ [(uf.name, sheet)] }
                if cfg.saveToDb && cfg.keyMap.isSome then
                  afterPost st3 (env.post (mkPayload cfg uf cells t as))
                else st3

/-- The whole evaluation loop over the (already truncated) uploads. -/
def runLoop (env : Env) (cfg : RunCfg) (files : List UpFile) : LoopState :=
  files.foldl (processOne env cfg) st0

/-- Outcome of the debug-overlay block (lines 283-299). -/
inductive OverlayOut where
  | notShown
  | shown (o : Overlay)
  | failedInfo (msg : String)
  | crash (msg : String)
deriving DecidableEq, Repr

/-- The debug-overlay block (lines 283-299): when a template is loaded, the
overlay is requested, some file was uploaded and large-batch mode is off,
re-parse the template (outside the inner try: a parse failure here crashes),
then inside the try re-decode and re-preprocess the FIRST image and call
`draw_overlay` on it with the current value of the loop variable `answers`;
any exception in the try is reported as an info message. -/
def overlayStage (env : Env) (cfg : RunCfg) (files : List UpFile) (st : LoopState) :
    OverlayOut :=
  match cfg.tpl with
  | none => OverlayOut.notShown
  | some tb =>
      if cfg.showOverlay && !files.isEmpty && !cfg.largeBatch then
        match env.parseTemplate tb with
        | Except.error e => OverlayOut.crash e
        | Except.ok tpl =>
            match files with
            | [] => OverlayOut.notShown
            | f0 :: _ =>
                match env.decode f0.content with
                | Except.error e => OverlayOut.failedInfo e
                | Except.ok img0 =>
                    let img := env.rectifyPerspective (env.detectOrientation img0).1
                    match st.answersVar with
                    | none => OverlayOut.failedInfo "NameError: answers"
                    | some as =>
                        match env.drawOverlay img tpl as cfg.adjust with
                        | Except.error e => OverlayOut.failedInfo e
                        | Except.ok o => OverlayOut.shown o
      else OverlayOut.notShown

/-- The full evaluation triggered by the button: truncate the uploads to the
first 500 when more were supplied (lines 198-200), run the loop, then run
the overlay block on the truncated list and the final loop state. -/
def runBatch (env : Env) (cfg : RunCfg) (files : List UpFile) :
    LoopState × OverlayOut :=
  let fs := if files.length > 500 then files.take 500 else files
  let st := runLoop env cfg fs
  (st, overlayStage env cfg fs st)

end OMR

namespace OMR

/-- The success row of an image whose detection and scoring succeeded. -/
def okRow (cfg : RunCfg) (uf : UpFile) (cells : List (String × Int))
    (t : Option Int) : Row :=
  Row.ok uf.name (setLabel cfg) cells t

/-- Rows contributed after the success row is appended: the per-image sheet
preparation may still fail and add a failure row for the same image. -/
def rowsFmt (env : Env) (cfg : RunCfg) (uf : UpFile) (as : AnswerSet)
    (cells : List (String × Int)) (t : Option Int) : List Row :=
  if cfg.largeBatch then [okRow cfg uf cells t]
  else
    match env.formatAnswers as with
    | Except.error e => [okRow cfg uf cells t, Row.err uf.name e]
    | Except.ok _ => [okRow cfg uf cells t]

/-- Rows contributed once the answers are known. -/
def rowsTail (env : Env) (cfg : RunCfg) (uf : UpFile) (as : AnswerSet) : List Row :=
  match scoreStage env cfg as with
  | Except.error e => [Row.err uf.name e]
  | Except.ok (cells, t) => rowsFmt env cfg uf as cells t

/-- The result rows one image contributes to the batch. -/
def newRows (env : Env) (cfg : RunCfg) (uf : UpFile) : List Row :=
  match detectStage env cfg uf with
  | Except.error e => [Row.err uf.name e]
  | Except.ok as => rowsTail env cfg uf as

/-- Detail sheets contributed once the answers are known. -/
def sheetsTail (env : Env) (cfg : RunCfg) (uf : UpFile) (as : AnswerSet) :
    List (String × Sheet) :=
  match scoreStage env cfg as with
  | Except.error _ => []
  | Except.ok _ =>
      if cfg.largeBatch then []
      else
        match env.formatAnswers as with
        | Except.error _ => []
        | Except.ok sheet => [(uf.name, sheet)]

/-- The detail sheets one image contributes to the batch. -/
def newSheets (env : Env) (cfg : RunCfg) (uf : UpFile) : List (String × Sheet) :=
  match detectStage env cfg uf with
  | Except.error _ => []
  | Except.ok as => sheetsTail env cfg uf as

/-- The value of the Python variable `answers` after one iteration, given
its previous value. -/
def newAnswers (env : Env) (cfg : RunCfg) (uf : UpFile) (prev : Option AnswerSet) :
    Option AnswerSet :=
  match detectStage env cfg uf with
  | Except.ok as => some as
  | Except.error _ => prev

lemma afterPost_eq (st : LoopState) (r : Except String Unit) : afterPost st r = st := by
  cases r <;> rfl

/-- One loop iteration is the previous state with the image's rows and
sheets appended and the `answers` variable updated: the branch taken never
depends on the accumulated state, and the posted request never changes it. -/
lemma processOne_char (env : Env) (cfg : RunCfg) (st : LoopState) (uf : UpFile) :
    processOne env cfg st uf =
      ⟨st.results ++ newRows env cfg uf, st.sheets ++ newSheets env cfg uf,
       newAnswers env cfg uf st.answersVar⟩ := by
  unfold processOne newRows rowsTail rowsFmt okRow newSheets sheetsTail newAnswers
  cases hd : detectStage env cfg uf with
  | error e => simp
  | ok as =>
      cases hsc : scoreStage env cfg as with
      | error e => simp [hsc]
      | ok ct =>
          obtain ⟨cells, t⟩ := ct
          cases hb : cfg.largeBatch with
          | true =>
              by_cases hdb : (cfg.saveToDb && cfg.keyMap.isSome) = true <;>
                simp [hsc, hdb, afterPost_eq]
          | false =>
              cases hf : env.formatAnswers as with
              | error e => simp [hsc, hf]
              | ok sheet =>
                  by_cases hdb : (cfg.saveToDb && cfg.keyMap.isSome) = true <;>
                    simp [hsc, hf, hdb, afterPost_eq]

lemma newRows_err_detect (env : Env) (cfg : RunCfg) (uf : UpFile) (e : String)
    (hd : detectStage env cfg uf = Except.error e) :
    newRows env cfg uf = [Row.err uf.name e] := by
  unfold newRows
  rw [hd]

lemma newRows_ok_detect (env : Env) (cfg : RunCfg) (uf : UpFile) (as : AnswerSet)
    (hd : detectStage env cfg uf = Except.ok as) :
    newRows env cfg uf = rowsTail env cfg uf as := by
  unfold newRows
  rw [hd]

lemma rowsTail_err (env : Env) (cfg : RunCfg) (uf : UpFile) (as : AnswerSet)
    (e : String) (hsc : scoreStage env cfg as = Except.error e) :
    rowsTail env cfg uf as = [Row.err uf.name e] := by
  unfold rowsTail
  rw [hsc]

lemma rowsTail_ok (env : Env) (cfg : RunCfg) (uf : UpFile) (as : AnswerSet)
    (cells : List (String × Int)) (t : Option Int)
    (hsc : scoreStage env cfg as = Except.ok (cells, t)) :
    rowsTail env cfg uf as = rowsFmt env cfg uf as cells t := by
  unfold rowsTail
  rw [hsc]

lemma rowsFmt_cases (env : Env) (cfg : RunCfg) (uf : UpFile) (as : AnswerSet)
    (cells : List (String × Int)) (t : Option Int) :
    rowsFmt env cfg uf as cells t = [okRow cfg uf cells t] ∨
    ∃ e, rowsFmt env cfg uf as cells t = [okRow cfg uf cells t, Row.err uf.name e] := by
  unfold rowsFmt
  cases hb : cfg.largeBatch with
  | true => simp
  | false =>
      cases hf : env.formatAnswers as with
      | error e => exact Or.inr ⟨e, by simp⟩
      | ok sheet => simp

lemma newRows_cases (env : Env) (cfg : RunCfg) (uf : UpFile) :
    (∃ e, newRows env cfg uf = [Row.err uf.name e]) ∨
    (∃ cells t, newRows env cfg uf = [okRow cfg uf cells t]) ∨
    (∃ cells t e, newRows env cfg uf = [okRow cfg uf cells t, Row.err uf.name e]) := by
  cases hd : detectStage env cfg uf with
  | error e => exact Or.inl ⟨e, newRows_err_detect env cfg uf e hd⟩
  | ok as =>
      rw [newRows_ok_detect env cfg uf as hd]
      cases hsc : scoreStage env cfg as with
      | error e => exact Or.inl ⟨e, rowsTail_err env cfg uf as e hsc⟩
      | ok ct =>
          obtain ⟨cells, t⟩ := ct
          rw [rowsTail_ok env cfg uf as cells t hsc]
          rcases rowsFmt_cases env cfg uf as cells t with h | ⟨e, h⟩
          · exact Or.inr (Or.inl ⟨cells, t, h⟩)
          · exact Or.inr (Or.inr ⟨cells, t, e, h⟩)

lemma newRows_name (env : Env) (cfg : RunCfg) (uf : UpFile) :
    ∀ r ∈ newRows env cfg uf, rowName r = uf.name := by
  rcases newRows_cases env cfg uf with ⟨e, h⟩ | ⟨cells, t, h⟩ | ⟨cells, t, e, h⟩ <;>
    rw [h] <;> intro r hr <;> simp at hr
  · rw [hr]; rfl
  · rw [hr]; rfl
  · rcases hr with hr | hr <;> rw [hr] <;> rfl

lemma newRows_length (env : Env) (cfg : RunCfg) (uf : UpFile) :
    1 ≤ (newRows env cfg uf).length ∧ (newRows env cfg uf).length ≤ 2 := by
  rcases newRows_cases env cfg uf with ⟨e, h⟩ | ⟨cells, t, h⟩ | ⟨cells, t, e, h⟩ <;>
    rw [h] <;> simp

lemma foldl_results (env : Env) (cfg : RunCfg) :
    ∀ (files : List UpFile) (st : LoopState),
      (files.foldl (processOne env cfg) st).results =
        st.results ++ files.flatMap (newRows env cfg)
  | [], st => by simp
  | uf :: rest, st => by
      rw [List.foldl_cons, foldl_results env cfg rest, processOne_char]
      simp [List.flatMap_cons]

lemma runLoop_results (env : Env) (cfg : RunCfg) (files : List UpFile) :
    (runLoop env cfg files).results = files.flatMap (newRows env cfg) := by
  rw [runLoop, foldl_results]
  rfl

lemma length_le_flatMap (g : UpFile → List Row) (h : ∀ x, 1 ≤ (g x).length) :
    ∀ l : List UpFile, l.length ≤ (l.flatMap g).length
  | [] => by simp
  | x :: rest => by
      rw [List.flatMap_cons, List.length_append, List.length_cons]
      have := length_le_flatMap g h rest
      have := h x
      omega

end OMR

namespace OMR

/-- A concrete collaborator environment used to exercise the loop: decoding
always succeeds, detection returns answer set 0, scoring returns no subject
rows, and the per-image sheet preparation always raises. -/
def envB : Env where
  decode := fun _ => Except.ok 0
  detectOrientation := fun i => (i, 0)
  rectifyPerspective := fun i => i
  imgDims := fun _ => (0, 0)
  parseTemplate := fun _ => Except.ok ⟨[]⟩
  estimateGridRois := fun _ _ => []
  evalByQuestions := fun _ _ _ => Except.ok 0
  computeScores := fun _ _ => Except.ok ([], 0)
  formatAnswers := fun _ => Except.error "boom"
  drawOverlay := fun _ _ _ _ => Except.ok 0
  post := fun _ => Except.ok ()
  subjects := []

/-- A concrete run configuration: no key, no template, defaults for the
tunables, overlay off, save-to-database off, large-batch off. -/
def cfgB : RunCfg where
  sheetVersion := "v1"
  keySheet := none
  keyMap := none
  tpl := none
  fillThreshold := 45/100
  minMargin := 12/100
  adjust := ⟨1, 1, 0, 0⟩
  showOverlay := false
  saveToDb := false
  largeBatch := false

/-- A concrete uploaded file. -/
def fB : UpFile := ⟨"a.png", 0⟩

/-- A concrete environment in which detection returns the (rectified) image
itself as the answer set, so different images have different answers, and
the overlay value encodes both the image and the answers it was drawn
with. -/
def envD : Env where
  decode := fun b => Except.ok b
  detectOrientation := fun i => (i, 0)
  rectifyPerspective := fun i => i
  imgDims := fun _ => (0, 0)
  parseTemplate := fun _ => Except.ok ⟨[]⟩
  estimateGridRois := fun _ _ => []
  evalByQuestions := fun img _ _ => Except.ok img
  computeScores := fun _ _ => Except.ok ([], 0)
  formatAnswers := fun _ => Except.ok 0
  drawOverlay := fun img _ as _ => Except.ok (100 * img + as)
  post := fun _ => Except.ok ()
  subjects := []

/-- The configuration `cfgB` with a template loaded and the debug overlay
requested. -/
def cfgD : RunCfg := { cfgB with tpl := some 7, showOverlay := true }

/-- First uploaded file for the overlay scenario. -/
def fA : UpFile := ⟨"a.png", 1⟩

/-- Second uploaded file for the overlay scenario. -/
def fA2 : UpFile := ⟨"b.png", 2⟩

/-- A batch of 501 distinct uploads. -/
def bigFiles : List UpFile := (List.range 501).map (fun k => UpFile.mk "f.png" k)

lemma lookupSubj_map_none (l : List String) (s : String) (hs : s ∈ l) :
    lookupSubj (l.map (fun x => (x, (none : Option Int)))) s = some none := by
  induction l with
  | nil => cases hs
  | cons a rest ih =>
      by_cases ha : a == s
      · simp [lookupSubj, List.find?, ha]
      · rcases List.mem_cons.mp hs with h | h
        · rw [h] at ha; simp at ha
        · simpa [lookupSubj, List.find?, ha] using ih h

lemma buildSubjCells_all_none (m : List (String × Option Int)) :
    ∀ subjects : List String, (∀ s ∈ subjects, lookupSubj m s = some none) →
      buildSubjCells subjects m = Except.ok []
  | [], _ => rfl
  | s :: rest, h => by
      unfold buildSubjCells
      rw [h s (List.mem_cons_self s rest)]
      exact buildSubjCells_all_none m rest (fun x hx => h x (List.mem_cons_of_mem s hx))

lemma scoreStage_none (env : Env) (cfg : RunCfg) (as : AnswerSet)
    (hk : cfg.keyMap = none) :
    scoreStage env cfg as = Except.ok ([], none) := by
  unfold scoreStage
  rw [hk]
  rw [buildSubjCells_all_none _ env.subjects
    (fun s hs => lookupSubj_map_none env.subjects s hs)]

lemma newAnswers_ok (env : Env) (cfg : RunCfg) (uf : UpFile) (as : AnswerSet)
    (prev : Option AnswerSet) (hd : detectStage env cfg uf = Except.ok as) :
    newAnswers env cfg uf prev = some as := by
  unfold newAnswers
  rw [hd]

end OMR

namespace OMR

/-- C2 (amended): the batch result list is exactly the concatenation, in
upload order, of the rows contributed by each evaluated image; every image
contributes at least one and at most two rows, each carrying that image's
filename; hence a per-image failure never aborts the batch and the batch
never returns fewer records than images.  (Two rows occur when an exception
is raised after the success row was appended at line 251, e.g. while
preparing the per-image sheet.) -/
theorem C2_batch_records (env : Env) (cfg : RunCfg) (files : List UpFile) :
    (runLoop env cfg files).results = files.flatMap (newRows env cfg) ∧
    (∀ uf : UpFile, 1 ≤ (newRows env cfg uf).length ∧ (newRows env cfg uf).length ≤ 2 ∧
      ∀ r ∈ newRows env cfg uf, rowName r = uf.name) ∧
    files.length ≤ (runLoop env cfg files).results.length := by
  refine ⟨runLoop_results env cfg files, ?_, ?_⟩
  · exact fun uf => ⟨(newRows_length env cfg uf).1, (newRows_length env cfg uf).2,
      newRows_name env cfg uf⟩
  · rw [runLoop_results env cfg files]
    exact length_le_flatMap _ (fun x => (newRows_length env cfg x).1) files

/-- C2 counterexample: one evaluated image can yield TWO result records, not
exactly one: with a collaborator whose `format_answers_as_columns` raises,
the success row is already appended (line 251) and the per-image handler
then appends a failure row for the same image. -/
theorem C2_counterexample :
    (runLoop envB cfgB [fB]).results =
      [Row.ok "a.png" "v1" [] none, Row.err "a.png" "boom"] ∧
    (runLoop envB cfgB [fB]).results.length = 2 := ⟨rfl, rfl⟩

/-- C3: the fill-threshold and minimum-margin sliders never reach detection:
the whole batch output (all result rows, sheets, the answers variable and
the overlay) is identical for every value of the two tunables, because the
calls to `evaluate_by_questions` (lines 224-229 and 236) and `draw_overlay`
(line 294) do not pass them. -/
theorem C3_tunables_never_reach_detection (env : Env) (cfg : RunCfg)
    (files : List UpFile) (ft mm : ℚ) :
    runBatch env { cfg with fillThreshold := ft, minMargin := mm } files =
      runBatch env cfg files := rfl

/-- C4: with two uploads whose detected answer sets differ (1 for the first
image, 2 for the second), the debug overlay for the first image is drawn
with the SECOND image's answers: `draw_overlay` at line 294 receives the
loop variable `answers`, which after the loop holds the last image's
answers.  The overlay encodes (100 times the image) plus the answers it was
given; the produced overlay is 102, not the 101 the first image's own
answers would give. -/
theorem C4_overlay_uses_last_answers :
    detectStage envD cfgD fA = Except.ok 1 ∧
    detectStage envD cfgD fA2 = Except.ok 2 ∧
    (runBatch envD cfgD [fA, fA2]).2 = OverlayOut.shown 102 ∧
    envD.drawOverlay 1 ⟨[]⟩ 2 cfgD.adjust = Except.ok 102 ∧
    envD.drawOverlay 1 ⟨[]⟩ 1 cfgD.adjust = Except.ok 101 ∧
    OverlayOut.shown 102 ≠ OverlayOut.shown 101 := by
  refine ⟨rfl, rfl, rfl, rfl, rfl, ?_⟩
  decide

end OMR

namespace OMR

instance : IsTotal Question (fun a b => qkey a ≤ qkey b) :=
  ⟨fun a b => le_total (qkey a) (qkey b)⟩

instance : IsTrans Question (fun a b => qkey a ≤ qkey b) :=
  ⟨fun _ _ _ hab hbc => le_trans hab hbc⟩

/-- C5: in a template-guided run the questions handed to the detector are
exactly the template's questions sorted ascending by their index key: the
sorted list is pairwise ascending, is a permutation of the template's
question list, and is the precise second argument of the
`evaluate_by_questions` call. -/
theorem C5_questions_sorted (env : Env) (cfg : RunCfg) (uf : UpFile)
    (tb : Bytes) (tpl : Template) (ht : cfg.tpl = some tb)
    (hp : env.parseTemplate tb = Except.ok tpl) :
    List.Sorted (fun a b => qkey a ≤ qkey b) (sortQ tpl.questions) ∧
    List.Perm (sortQ tpl.questions) tpl.questions ∧
    detectStage env cfg uf =
      (match env.decode uf.content with
       | Except.error e => Except.error e
       | Except.ok img0 =>
           env.evalByQuestions (env.rectifyPerspective (env.detectOrientation img0).1)
             (sortQ tpl.questions) (some cfg.adjust)) := by
  refine ⟨List.sorted_insertionSort _ _, List.perm_insertionSort _ _, ?_⟩
  unfold detectStage
  cases hdec : env.decode uf.content with
  | error e => rfl
  | ok img0 =>
      simp only [ht]
      rw [hp]

/-- Witness for C5: a concrete template-guided run. -/
theorem C5_witness :
    List.Sorted (fun a b => qkey a ≤ qkey b) (sortQ (Template.mk []).questions) ∧
    List.Perm (sortQ (Template.mk []).questions) (Template.mk []).questions ∧
    detectStage envD cfgD fB =
      (match envD.decode fB.content with
       | Except.error e => Except.error e
       | Except.ok img0 =>
           envD.evalByQuestions
             (envD.rectifyPerspective (envD.detectOrientation img0).1)
             (sortQ (Template.mk []).questions) (some cfgD.adjust)) :=
  C5_questions_sorted envD cfgD fB 7 (Template.mk []) rfl rfl

/-- C6: in a run without an answer key, every success row carries no subject
scores and no total, yet answer detection still runs: the loop variable is
updated with the image's detected answer set and the image's first result
row is the score-free success row. -/
theorem C6_no_key_skips_scoring (env : Env) (cfg : RunCfg) (st : LoopState)
    (uf : UpFile) (as : AnswerSet) (hk : cfg.keyMap = none)
    (hd : detectStage env cfg uf = Except.ok as) :
    (processOne env cfg st uf).answersVar = some as ∧
    (∃ rest, newRows env cfg uf = okRow cfg uf [] none :: rest) ∧
    (∀ n v cells t, Row.ok n v cells t ∈ newRows env cfg uf →
      cells = [] ∧ t = none) := by
  have hsc := scoreStage_none env cfg as hk
  have hrows : newRows env cfg uf = rowsFmt env cfg uf as [] none := by
    rw [newRows_ok_detect env cfg uf as hd, rowsTail_ok env cfg uf as [] none hsc]
  refine ⟨?_, ?_, ?_⟩
  · rw [processOne_char]
    exact newAnswers_ok env cfg uf as st.answersVar hd
  · rcases rowsFmt_cases env cfg uf as [] none with h | ⟨e, h⟩
    · exact ⟨[], by rw [hrows, h]⟩
    · exact ⟨[Row.err uf.name e], by rw [hrows, h]⟩
  · intro n v cells t hmem
    rw [hrows] at hmem
    rcases rowsFmt_cases env cfg uf as [] none with h | ⟨e, h⟩ <;> rw [h] at hmem <;>
      simp [okRow] at hmem <;> exact ⟨hmem.2.2.1, hmem.2.2.2⟩

/-- Witness for C6: a concrete keyless run. -/
theorem C6_witness :
    (processOne envB cfgB st0 fB).answersVar = some 0 ∧
    (∃ rest, newRows envB cfgB fB = okRow cfgB fB [] none :: rest) ∧
    (∀ n v cells t, Row.ok n v cells t ∈ newRows envB cfgB fB →
      cells = [] ∧ t = none) :=
  C6_no_key_skips_scoring envB cfgB st0 fB 0 rfl rfl

end OMR

namespace OMR

/-- C8: the pipeline is a pure function of its inputs: two runs over an
identical batch with identical configuration (threshold, margin, alignment,
template, key) produce identical loop states (all rows, sheets and answers)
and an identical overlay outcome. -/
theorem C8_deterministic (env : Env) (cfgA cfgC : RunCfg)
    (filesA filesC : List UpFile) (hc : cfgA = cfgC) (hf : filesA = filesC) :
    runBatch env cfgA filesA = runBatch env cfgC filesC := by
  rw [hc, hf]

/-- Witness for C8: two identical concrete runs coincide. -/
theorem C8_witness : runBatch envB cfgB [fB] = runBatch envB cfgB [fB] :=
  C8_deterministic envB cfgB cfgB [fB] [fB] rfl rfl

lemma runBatch_truncates (env : Env) (cfg : RunCfg) (files : List UpFile)
    (h : 500 < files.length) :
    runBatch env cfg files =
      (runLoop env cfg (files.take 500),
       overlayStage env cfg (files.take 500) (runLoop env cfg (files.take 500))) := by
  unfold runBatch
  rw [if_pos h]

/-- C9: when more than 500 files are uploaded, the run is identical to a run
on exactly the first 500 files in upload order; every produced record names
one of the first 500 files, and each of the first 500 files produces at
least one record. -/
theorem C9_first_500 (env : Env) (cfg : RunCfg) (files : List UpFile)
    (h : 500 < files.length) :
    runBatch env cfg files = runBatch env cfg (files.take 500) ∧
    (∀ r ∈ (runBatch env cfg files).1.results,
      rowName r ∈ (files.take 500).map UpFile.name) ∧
    (∀ uf ∈ files.take 500,
      ∃ r ∈ (runBatch env cfg files).1.results, rowName r = uf.name) := by
  have hlen : ¬ 500 < (files.take 500).length := by
    simp [List.length_take]
  have htr := runBatch_truncates env cfg files h
  have htr2 : runBatch env cfg (files.take 500) =
      (runLoop env cfg (files.take 500),
       overlayStage env cfg (files.take 500) (runLoop env cfg (files.take 500))) := by
    unfold runBatch
    rw [if_neg hlen]
  have hres : (runBatch env cfg files).1.results =
      (files.take 500).flatMap (newRows env cfg) := by
    rw [htr]
    exact runLoop_results env cfg (files.take 500)
  refine ⟨htr.trans htr2.symm, ?_, ?_⟩
  · intro r hr
    rw [hres] at hr
    obtain ⟨uf, huf, hruf⟩ := List.mem_flatMap.mp hr
    exact List.mem_map.mpr ⟨uf, huf, (newRows_name env cfg uf r hruf).symm⟩
  · intro uf huf
    obtain ⟨r, hr⟩ := List.exists_mem_of_length_pos (newRows_length env cfg uf).1
    refine ⟨r, ?_, newRows_name env cfg uf r hr⟩
    rw [hres]
    exact List.mem_flatMap.mpr ⟨uf, huf, hr⟩

/-- Witness for C9: a batch of 501 uploads. -/
theorem C9_witness :
    runBatch envB cfgB bigFiles = runBatch envB cfgB (bigFiles.take 500) ∧
    (∀ r ∈ (runBatch envB cfgB bigFiles).1.results,
      rowName r ∈ (bigFiles.take 500).map UpFile.name) ∧
    (∀ uf ∈ bigFiles.take 500,
      ∃ r ∈ (runBatch envB cfgB bigFiles).1.results, rowName r = uf.name) :=
  C9_first_500 envB cfgB bigFiles
    (by simp [bigFiles, List.length_map, List.length_range])

lemma newRows_post (env : Env) (p : Payload → Except String Unit)
    (cfg : RunCfg) (uf : UpFile) :
    newRows { env with post := p } cfg uf = newRows env cfg uf := rfl

lemma newSheets_post (env : Env) (p : Payload → Except String Unit)
    (cfg : RunCfg) (uf : UpFile) :
    newSheets { env with post := p } cfg uf = newSheets env cfg uf := rfl

lemma newAnswers_post (env : Env) (p : Payload → Except String Unit)
    (cfg : RunCfg) (uf : UpFile) (prev : Option AnswerSet) :
    newAnswers { env with post := p } cfg uf prev = newAnswers env cfg uf prev := rfl

lemma overlayStage_post (env : Env) (p : Payload → Except String Unit)
    (cfg : RunCfg) (files : List UpFile) (st : LoopState) :
    overlayStage { env with post := p } cfg files st = overlayStage env cfg files st := rfl

lemma processOne_post (env : Env) (p : Payload → Except String Unit)
    (cfg : RunCfg) (st : LoopState) (uf : UpFile) :
    processOne { env with post := p } cfg st uf = processOne env cfg st uf := by
  rw [processOne_char, processOne_char, newRows_post, newSheets_post, newAnswers_post]

lemma foldl_post (env : Env) (p : Payload → Except String Unit) (cfg : RunCfg) :
    ∀ (files : List UpFile) (st : LoopState),
      files.foldl (processOne { env with post := p } cfg) st =
        files.foldl (processOne env cfg) st
  | [], _ => rfl
  | uf :: rest, st => by
      rw [List.foldl_cons, List.foldl_cons, processOne_post,
        foldl_post env p cfg rest]

/-- C10: the outcome of the POST to the results API is invisible: replacing
the posting function by any other (always failing, always succeeding, or
anything else) leaves every result row, every sheet, the answers variable
and the overlay unchanged, because the `except Exception: pass` around
`requests.post` discards both success and failure. -/
theorem C10_post_outcome_ignored (env : Env) (p : Payload → Except String Unit)
    (cfg : RunCfg) (files : List UpFile) :
    runBatch { env with post := p } cfg files = runBatch env cfg files := by
  unfold runBatch runLoop
  simp only [foldl_post, overlayStage_post]

end OMR
